import Mathlib

/-!
Verification of the forum-archival pipeline of `coursera-forum-dl.py`.

The embedding models the script's observable behaviour:

* `parse_args` — the cookie-jar existence check and credential resolution
  that can terminate the process with exit code 1;
* `download_forums` — one course's archival run: authentication, creation
  of the per-course `forums` directory, the thread-index fetch, the
  `total_threads` conversion via Python's `int()`, and the per-id fetch
  loop with its `except requests.exceptions.HTTPError: continue` handler;
* `mainLoop` — the per-course driver with its four `except` clauses
  (HTTPError, SSLError with re-raise under debug, ClassNotFound,
  AuthenticationFailed) and the `completed_classes` bookkeeping.

Remote calls and the on-disk world are made explicit: a `CourseEnv` fixes
the outcome of each network call of a run, and `FSState` records the
directories and files touched by the run.  Exceptions are the `Exc` type.
-/

namespace CourseraForumDl

/-- The exception classes distinguished by the script's handlers:
`requests.exceptions.HTTPError`, `requests.exceptions.SSLError`,
other `requests` connection failures, the two authentication failures
imported from `coursera.cookies`, Python's `ValueError` (raised by
`int()` on a malformed literal), and `OSError` from file operations. -/
inductive Exc
  | httpError
  | sslError
  | connectionError
  | classNotFound
  | authenticationFailed
  | valueError
  | osError
  deriving DecidableEq

/-- A JSON scalar as it may appear in the `total_threads` field of the
thread-index response: a string or an integer. -/
inductive PyVal
  | str (s : String)
  | int (n : Int)
  deriving DecidableEq

/-- Whitespace characters `int()` strips around a string literal. -/
def isSpaceChar (c : Char) : Bool :=
  c == ' ' || c == '\t' || c == '\n' || c == '\r'

/-- Accumulating decimal scan: consumes the remaining characters, which
must all be digits (and at least one digit must have been seen for the
accumulator to be `some`). -/
def digitsToNat : List Char → Option Nat → Option Nat
  | [], acc => acc
  | c :: cs, acc =>
    if c.isDigit then
      match acc with
      | none => digitsToNat cs (some (c.toNat - 48))
      | some n => digitsToNat cs (some (n * 10 + (c.toNat - 48)))
    else none

/-- The decimal-integer literals accepted by Python's `int()` on a
string: optional surrounding whitespace, an optional sign, then one or
more digits; anything else is rejected. -/
def parseIntLiteral (l : List Char) : Option Int :=
  match ((l.dropWhile isSpaceChar).reverse.dropWhile isSpaceChar).reverse with
  | '-' :: rest => (digitsToNat rest none).map (fun n => -(n : Int))
  | '+' :: rest => (digitsToNat rest none).map (fun n => (n : Int))
  | rest => (digitsToNat rest none).map (fun n => (n : Int))

/-- Python's `int()` applied to the `total_threads` field
(line 254: `threads_num=int(threads["total_threads"])`): an integer is
returned unchanged; a string is parsed as an optionally signed decimal
literal, and a malformed literal raises `ValueError`. -/
def pyInt : PyVal → Except Exc Int
  | PyVal.int n => Except.ok n
  | PyVal.str s =>
    match parseIntLiteral s.data with
    | some n => Except.ok n
    | none => Except.error Exc.valueError

/-- The file-system state a run manipulates: the set of existing
directories and the files (full path paired with contents). -/
structure FSState where
  dirs : List String
  files : List (String × String)
  deriving DecidableEq

/-- The empty file system. -/
def emptyFS : FSState := ⟨[], []⟩

/-- `os.path.exists` on a directory path. -/
def fsDirExists (fs : FSState) (p : String) : Bool := fs.dirs.contains p

/-- `mkdir_p`: create a directory (recursively; only the full path is
tracked, which is all the script ever queries). -/
def fsMkdirP (fs : FSState) (p : String) : FSState := { fs with dirs := p :: fs.dirs }

/-- `open(path, 'w')` followed by `f.write(contents)`: the file at `path`
now holds exactly `contents`, replacing any previous version (lookup
returns the most recent write). -/
def fsWriteFile (fs : FSState) (p c : String) : FSState :=
  { fs with files := (p, c) :: fs.files }

/-- The contents of the file at `p`, if one exists. -/
def fsGetFile (fs : FSState) (p : String) : Option String :=
  (fs.files.find? (fun e => e.1 == p)).map (fun e => e.2)

/-- `os.path.join` as used by the script (relative component appended
with a separator; joining onto the empty string yields the component). -/
def osJoin (a b : String) : String := if a = "" then b else a ++ "/" ++ b

/-- `os.path.join(args.path, class_name, 'forums')` (lines 243–245). -/
def forumsDir (path cls : String) : String := osJoin (osJoin path cls) "forums"

/-- `forums_dir + '/{0}.json'.format(i)` (line 262): the output file for
thread id `i`. -/
def threadFilePath (dir : String) (i : Nat) : String :=
  dir ++ "/" ++ Nat.repr i ++ ".json"

/-- The outcomes of one course's remote interactions during one run:
the result of `get_cookies_for_class`, the thread-index fetch combined
with extracting the `total_threads` field from the decoded JSON
(`none` when the field is absent), the per-id thread fetch, and the
outcome of the per-id file write (`some e` when opening or writing
`<id>.json` raises `e`). -/
structure CourseEnv where
  auth : Except Exc Unit
  index : Except Exc (Option PyVal)
  threadFetch : Nat → Except Exc String
  writeErr : Nat → Option Exc

/-- One iteration of the per-id loop (lines 256–263): fetch thread `i`;
an `HTTPError` is swallowed by `continue`; any other exception
propagates; on success the payload is written to `<dir>/<i>.json`
outside the `try` block, so a write failure also propagates. -/
def fetchStep (env : CourseEnv) (dir : String) (fs : FSState) (i : Nat) :
    FSState × Option Exc :=
  match env.threadFetch i with
  | Except.error Exc.httpError => (fs, none)
  | Except.error e => (fs, some e)
  | Except.ok post =>
    match env.writeErr i with
    | some e => (fs, some e)
    | none => (fsWriteFile fs (threadFilePath dir i) post, none)

/-- The per-id loop over the listed ids: each step either continues with
the updated file system or aborts the remaining ids with the raised
exception. -/
def fetchLoop (env : CourseEnv) (dir : String) :
    List Nat → FSState → FSState × Option Exc
  | [], fs => (fs, none)
  | i :: rest, fs =>
    match fetchStep env dir fs i with
    | (fs1, none) => fetchLoop env dir rest fs1
    | (fs1, some e) => (fs1, some e)

/-- Lines 247–248: `if not os.path.exists(forums_dir): mkdir_p(...)`. -/
def ensureDir (fs : FSState) (d : String) : FSState :=
  if fsDirExists fs d then fs else fsMkdirP fs d

/-- Lines 252–254: `threads_num = 0`; if the `total_threads` field is
present, `threads_num = int(...)`. -/
def threadsNumOf (field : Option PyVal) : Except Exc Int :=
  match field with
  | none => Except.ok 0
  | some v => pyInt v

/-- `download_forums` (lines 230–265): authenticate; ensure the
`forums` directory exists (lines 247–248, before the index fetch of
line 250, so the directory is present in every continuation that
follows authentication); fetch and decode the thread index; convert
`total_threads`; run the per-id loop over `range(1, threads_num + 1)`;
return 0.  The file-system state is returned alongside the outcome
because side effects performed before an exception persist. -/
def download_forums (env : CourseEnv) (path cls : String) (fs : FSState) :
    FSState × Except Exc Int :=
  match env.auth with
  | Except.error e => (fs, Except.error e)
  | Except.ok _ =>
    match env.index with
    | Except.error e => (ensureDir fs (forumsDir path cls), Except.error e)
    | Except.ok field =>
      match threadsNumOf field with
      | Except.error e => (ensureDir fs (forumsDir path cls), Except.error e)
      | Except.ok tn =>
        match fetchLoop env (forumsDir path cls) (List.range' 1 tn.toNat)
            (ensureDir fs (forumsDir path cls)) with
        | (fs2, none) => (fs2, Except.ok 0)
        | (fs2, some e) => (fs2, Except.error e)

/-- The per-course loop of `main` (lines 281–296): each course's
`download_forums` is guarded by `except` clauses for `HTTPError`,
`SSLError` (re-raised when the run is in debug mode), `ClassNotFound`
and `AuthenticationFailed`; the course name is appended to
`completed_classes` only when the returned value is truthy
(`if download_forums(args, class_name):`).  Any other exception is
uncaught and terminates the batch; the result carries the file system,
the completed list, and the uncaught exception if one occurred. -/
def mainLoop (envs : String → CourseEnv) (path : String) (debugRun : Bool) :
    List String → FSState → List String → FSState × List String × Option Exc
  | [], fs, completed => (fs, completed, none)
  | c :: rest, fs, completed =>
    match download_forums (envs c) path c fs with
    | (fs1, Except.ok ret) =>
      mainLoop envs path debugRun rest fs1
        (if ret != 0 then completed ++ [c] else completed)
    | (fs1, Except.error Exc.httpError) => mainLoop envs path debugRun rest fs1 completed
    | (fs1, Except.error Exc.sslError) =>
      if debugRun then (fs1, completed, some Exc.sslError)
      else mainLoop envs path debugRun rest fs1 completed
    | (fs1, Except.error Exc.classNotFound) => mainLoop envs path debugRun rest fs1 completed
    | (fs1, Except.error Exc.authenticationFailed) =>
      mainLoop envs path debugRun rest fs1 completed
    | (fs1, Except.error e) => (fs1, completed, some e)

/-- Lines 298–300: the final summary is printed only when
`completed_classes` is non-empty, listing the names joined by spaces. -/
def summary (completed : List String) : Option String :=
  if completed.isEmpty then none
  else some ("Classes which appear completed: " ++ String.intercalate " " completed)

/-- The parsed options consumed by the modelled checks of `parse_args`:
the course list, the output root, the optional cookie-jar path, the
debug flag, and whether credential resolution would succeed. -/
structure ArgsIn where
  class_names : List String
  path : String
  cookies_file : Option String
  debug : Bool
  credentialsOk : Bool

/-- The exit-relevant tail of `parse_args` (lines 175–186): a supplied
cookie-jar path that does not exist exits with status 1; otherwise,
when no cookie jar is given, failed credential resolution also exits
with status 1. -/
def parse_args (a : ArgsIn) (existsOnDisk : String → Bool) : Except Nat ArgsIn :=
  match a.cookies_file with
  | some p => if existsOnDisk p then Except.ok a else Except.error 1
  | none => if a.credentialsOk then Except.ok a else Except.error 1

/-- `main` (lines 268–300): `parse_args` runs first and its `sys.exit(1)`
precedes any network call or course processing; otherwise the
per-course loop runs with an empty `completed_classes`. -/
def mainEntry (a : ArgsIn) (existsOnDisk : String → Bool) (envs : String → CourseEnv)
    (fs : FSState) : Except Nat (FSState × List String × Option Exc) :=
  match parse_args a existsOnDisk with
  | Except.error code => Except.error code
  | Except.ok a2 => Except.ok (mainLoop envs a2.path a2.debug a2.class_names fs [])

/-- Decimal digit list of a natural number, most significant digit
first; used to reason about `Nat.repr` and hence about the distinctness
of the `<id>.json` file names. -/
def decDigits (n : Nat) : List Char :=
  if _h : n < 10 then [Nat.digitChar n]
  else
    have hlt : n / 10 < n := Nat.div_lt_self (by omega) (by omega)
    decDigits (n / 10) ++ [Nat.digitChar (n % 10)]

/-- Thread id `j` does not abort the per-id loop: its fetch either fails
with an HTTP error (swallowed by the handler) or succeeds and the file
write for it succeeds. -/
def goodStep (env : CourseEnv) (j : Nat) : Prop :=
  env.threadFetch j = Except.error Exc.httpError ∨
    ∃ s, env.threadFetch j = Except.ok s ∧ env.writeErr j = none

/-- A three-thread course whose thread 2 fetch returns an HTTP error
while threads 1 and 3 succeed. -/
def envC1 : CourseEnv where
  auth := Except.ok ()
  index := Except.ok (some (PyVal.int 3))
  threadFetch := fun i =>
    if i = 2 then Except.error Exc.httpError else Except.ok ("p" ++ Nat.repr i)
  writeErr := fun _ => none

/-- A one-thread course whose single fetch succeeds with payload "new". -/
def envC3 : CourseEnv where
  auth := Except.ok ()
  index := Except.ok (some (PyVal.int 1))
  threadFetch := fun _ => Except.ok "new"
  writeErr := fun _ => none

/-- A file system already holding an older version of thread 1's file. -/
def fsOld : FSState := ⟨[], [(threadFilePath "d" 1, "old")]⟩

/-- A course whose authentication succeeds but whose thread-index fetch
raises an HTTP error. -/
def envIndexHttpFail : CourseEnv where
  auth := Except.ok ()
  index := Except.error Exc.httpError
  threadFetch := fun _ => Except.error Exc.httpError
  writeErr := fun _ => none

/-- A two-thread course where every fetch and write succeeds. -/
def envTwoThreads : CourseEnv where
  auth := Except.ok ()
  index := Except.ok (some (PyVal.int 2))
  threadFetch := fun i => Except.ok ("payload" ++ Nat.repr i)
  writeErr := fun _ => none

/-- A course whose index response lacks the `total_threads` field; its
thread fetcher would fail hard, proving the loop body never runs. -/
def envNoField : CourseEnv where
  auth := Except.ok ()
  index := Except.ok none
  threadFetch := fun _ => Except.error Exc.connectionError
  writeErr := fun _ => none

/-- A course whose index response carries `total_threads = 0`. -/
def envZeroField : CourseEnv where
  auth := Except.ok ()
  index := Except.ok (some (PyVal.int 0))
  threadFetch := fun _ => Except.error Exc.connectionError
  writeErr := fun _ => none

/-- A course whose authentication raises a TLS error. -/
def envAuthSsl : CourseEnv where
  auth := Except.error Exc.sslError
  index := Except.ok none
  threadFetch := fun _ => Except.error Exc.httpError
  writeErr := fun _ => none

/-- A course whose authentication raises `ClassNotFound`. -/
def envAuthNotFound : CourseEnv where
  auth := Except.error Exc.classNotFound
  index := Except.ok none
  threadFetch := fun _ => Except.error Exc.httpError
  writeErr := fun _ => none

/-- A two-thread course whose thread fetches raise a connection error
(not an HTTP-status error). -/
def envConnFail : CourseEnv where
  auth := Except.ok ()
  index := Except.ok (some (PyVal.int 2))
  threadFetch := fun _ => Except.error Exc.connectionError
  writeErr := fun _ => none

/-- A course whose `total_threads` field holds a non-numeric string. -/
def envBadCount : CourseEnv where
  auth := Except.ok ()
  index := Except.ok (some (PyVal.str "abc"))
  threadFetch := fun _ => Except.ok "x"
  writeErr := fun _ => none

/-- Course table: course a fails with a TLS error during
authentication, course b would complete normally. -/
def envsSslBatch : String → CourseEnv := fun c =>
  if c = "a" then envAuthSsl else envNoField

/-- Course table: course a fails with `ClassNotFound`, course b would
complete normally. -/
def envsNotFoundBatch : String → CourseEnv := fun c =>
  if c = "a" then envAuthNotFound else envNoField

/-- Course table: course a has a malformed `total_threads`, course b
would complete normally. -/
def envsBadCountBatch : String → CourseEnv := fun c =>
  if c = "a" then envBadCount else envNoField

/-- Options naming a cookie-jar file (which will not exist on disk). -/
def argsMissingJar : ArgsIn :=
  ⟨["demo-101"], "", some "/home/user/cookies.txt", false, true⟩

theorem decDigits_shape (n : Nat) :
    decDigits n = (if 10 ≤ n then decDigits (n / 10) else []) ++ [Nat.digitChar (n % 10)] := by
  rw [decDigits]
  by_cases h : n < 10
  · rw [dif_pos h, if_neg (by omega), Nat.mod_eq_of_lt h]
    simp
  · rw [dif_neg h, if_pos (by omega)]

theorem decDigits_ne_nil (n : Nat) : decDigits n ≠ [] := by
  rw [decDigits_shape]
  simp

theorem toDigitsCore_eq_decDigits :
    ∀ (fuel n : Nat) (ds : List Char), n < fuel →
      Nat.toDigitsCore 10 fuel n ds = decDigits n ++ ds := by
  intro fuel
  induction fuel with
  | zero => intro n ds h; omega
  | succ f ih =>
    intro n ds hn
    simp only [Nat.toDigitsCore]
    by_cases h0 : n / 10 = 0
    · rw [if_pos h0, decDigits_shape, if_neg (by omega)]
      simp
    · rw [if_neg h0, ih (n / 10) (Nat.digitChar (n % 10) :: ds) (by omega)]
      rw [decDigits_shape n, if_pos (by omega)]
      simp

theorem natRepr_eq_decDigits (n : Nat) : Nat.repr n = (decDigits n).asString := by
  simp only [Nat.repr, Nat.toDigits]
  rw [toDigitsCore_eq_decDigits (n + 1) n [] (by omega)]
  simp

theorem digitChar_inj10 :
    ∀ a, a < 10 → ∀ b, b < 10 → Nat.digitChar a = Nat.digitChar b → a = b := by
  decide

theorem decDigits_inj : ∀ a b : Nat, decDigits a = decDigits b → a = b := by
  intro a
  induction a using Nat.strong_induction_on with
  | _ a ih =>
    intro b hab
    rw [decDigits_shape a, decDigits_shape b] at hab
    obtain ⟨h1, h2⟩ := List.append_inj' hab (by simp)
    simp only [List.cons.injEq, and_true] at h2
    have hmod : a % 10 = b % 10 :=
      digitChar_inj10 _ (Nat.mod_lt _ (by omega)) _ (Nat.mod_lt _ (by omega)) h2
    by_cases ha : 10 ≤ a <;> by_cases hb : 10 ≤ b
    · rw [if_pos ha, if_pos hb] at h1
      have := ih (a / 10) (by omega) (b / 10) h1
      omega
    · rw [if_pos ha, if_neg hb] at h1
      exact absurd h1 (decDigits_ne_nil _)
    · rw [if_neg ha, if_pos hb] at h1
      exact absurd h1.symm (decDigits_ne_nil _)
    · omega

theorem natRepr_inj {a b : Nat} (h : Nat.repr a = Nat.repr b) : a = b := by
  apply decDigits_inj
  rw [natRepr_eq_decDigits, natRepr_eq_decDigits] at h
  have h2 := congrArg String.data h
  simpa [List.asString] using h2

theorem threadFilePath_inj {dir : String} {i j : Nat}
    (h : threadFilePath dir i = threadFilePath dir j) : i = j := by
  apply natRepr_inj
  unfold threadFilePath at h
  have hd := congrArg String.data h
  simp only [String.data_append, List.append_assoc] at hd
  have h1 := List.append_cancel_left hd
  have h2 := List.append_cancel_left h1
  have h3 := List.append_cancel_right h2
  exact String.ext h3

theorem threadFilePath_pairwise (dir : String) (n : Nat) :
    List.Pairwise (fun a b => threadFilePath dir a ≠ threadFilePath dir b)
      (List.range' 1 n) := by
  have h := List.nodup_range' 1 n
  exact h.imp (fun hab hpath => hab (threadFilePath_inj hpath))

theorem fsGetFile_write_self (fs : FSState) (p c : String) :
    fsGetFile (fsWriteFile fs p c) p = some c := by
  simp [fsGetFile, fsWriteFile]

theorem fsGetFile_write_other (fs : FSState) (p c q : String) (h : q ≠ p) :
    fsGetFile (fsWriteFile fs p c) q = fsGetFile fs q := by
  simp only [fsGetFile, fsWriteFile]
  rw [List.find?_cons_of_neg]
  simpa using fun hh => h hh.symm

theorem fetchStep_dirs (env : CourseEnv) (dir : String) (fs : FSState) (i : Nat) :
    (fetchStep env dir fs i).1.dirs = fs.dirs := by
  unfold fetchStep
  cases h : env.threadFetch i with
  | error e => cases e <;> rfl
  | ok post =>
    cases hw : env.writeErr i with
    | some e => rfl
    | none => rfl

theorem fetchLoop_dirs (env : CourseEnv) (dir : String) :
    ∀ (ids : List Nat) (fs : FSState), ((fetchLoop env dir ids fs).1).dirs = fs.dirs := by
  intro ids
  induction ids with
  | nil => intro fs; rfl
  | cons i rest ih =>
    intro fs
    simp only [fetchLoop]
    rcases hs : fetchStep env dir fs i with ⟨fs1, oe⟩
    have hd : fs1.dirs = fs.dirs := by
      have h2 := fetchStep_dirs env dir fs i
      rw [hs] at h2
      exact h2
    cases oe with
    | none => rw [ih fs1, hd]
    | some e => exact hd

theorem fsDirExists_ensureDir (fs : FSState) (d : String) :
    fsDirExists (ensureDir fs d) d = true := by
  unfold ensureDir
  by_cases h : fsDirExists fs d
  · rw [if_pos h]
    exact h
  · rw [if_neg h]
    simp [fsDirExists, fsMkdirP]

theorem fsDirExists_congr {fs1 fs2 : FSState} (h : fs1.dirs = fs2.dirs) (p : String) :
    fsDirExists fs1 p = fsDirExists fs2 p := by
  unfold fsDirExists
  rw [h]

theorem fetchLoop_no_abort (env : CourseEnv) (dir : String) :
    ∀ (ids : List Nat) (fs : FSState),
      (∀ j ∈ ids, goodStep env j) →
      List.Pairwise (fun a b => threadFilePath dir a ≠ threadFilePath dir b) ids →
      ∃ fs2, fetchLoop env dir ids fs = (fs2, none) ∧
        (∀ p, (∀ j ∈ ids, p ≠ threadFilePath dir j) → fsGetFile fs2 p = fsGetFile fs p) ∧
        (∀ j ∈ ids,
          (env.threadFetch j = Except.error Exc.httpError →
            fsGetFile fs2 (threadFilePath dir j) = fsGetFile fs (threadFilePath dir j)) ∧
          (∀ s, env.threadFetch j = Except.ok s →
            fsGetFile fs2 (threadFilePath dir j) = some s)) := by
  intro ids
  induction ids with
  | nil =>
    intro fs _ _
    exact ⟨fs, rfl, fun p _ => rfl, fun j hj => absurd hj (List.not_mem_nil j)⟩
  | cons i rest ih =>
    intro fs hgood hpw
    have hgi := hgood i (List.mem_cons_self i rest)
    have hpw_head : ∀ j ∈ rest, threadFilePath dir i ≠ threadFilePath dir j :=
      (List.pairwise_cons.mp hpw).1
    have hpw_rest := (List.pairwise_cons.mp hpw).2
    have hgood_rest : ∀ j ∈ rest, goodStep env j :=
      fun j hj => hgood j (List.mem_cons_of_mem i hj)
    rcases hgi with hhttp | ⟨s, hok, hwr⟩
    · have hstep : fetchStep env dir fs i = (fs, none) := by
        unfold fetchStep
        rw [hhttp]
      obtain ⟨fs2, hloop, hframe, hids⟩ := ih fs hgood_rest hpw_rest
      refine ⟨fs2, ?_, ?_, ?_⟩
      · simp only [fetchLoop]
        rw [hstep]
        exact hloop
      · intro p hp
        exact hframe p (fun j hj => hp j (List.mem_cons_of_mem i hj))
      · intro j hj
        rcases List.mem_cons.mp hj with rfl | hj2
        · constructor
          · intro _
            exact hframe _ (fun k hk => hpw_head k hk)
          · intro t ht
            rw [ht] at hhttp
            exact absurd hhttp (by simp)
        · exact hids j hj2
    · have hstep : fetchStep env dir fs i =
          (fsWriteFile fs (threadFilePath dir i) s, none) := by
        unfold fetchStep
        rw [hok, hwr]
      obtain ⟨fs2, hloop, hframe, hids⟩ :=
        ih (fsWriteFile fs (threadFilePath dir i) s) hgood_rest hpw_rest
      refine ⟨fs2, ?_, ?_, ?_⟩
      · simp only [fetchLoop]
        rw [hstep]
        exact hloop
      · intro p hp
        have h1 := hframe p (fun j hj => hp j (List.mem_cons_of_mem i hj))
        rw [h1, fsGetFile_write_other fs _ s p (hp i (List.mem_cons_self i rest))]
      · intro j hj
        rcases List.mem_cons.mp hj with rfl | hj2
        · constructor
          · intro hh
            rw [hh] at hok
            exact absurd hok (by simp)
          · intro t ht
            rw [ht] at hok
            obtain rfl := Except.ok.inj hok
            have h1 := hframe (threadFilePath dir j) (fun k hk => hpw_head k hk)
            rw [h1, fsGetFile_write_self]
        · refine ⟨?_, (hids j hj2).2⟩
          intro hh
          have h2 := (hids j hj2).1 hh
          rw [h2, fsGetFile_write_other fs _ s _ (fun hq => hpw_head j hj2 hq.symm)]

/-- C1: if fetching thread `i` (with `1 ≤ i ≤ N`) raises an HTTP error,
the iteration for `i` leaves the file system unchanged and raises
nothing (the loop continues with `i + 1`), the whole per-course loop
runs to completion, no file is written for id `i`, every other id whose
fetch succeeds still gets its own file with its own payload, and paths
outside the loop's files are untouched. -/
theorem c1_http_error_isolated (env : CourseEnv) (dir : String) (fs : FSState) (n i : Nat)
    (h1 : 1 ≤ i) (h2 : i ≤ n)
    (hi : env.threadFetch i = Except.error Exc.httpError)
    (hrest : ∀ j, 1 ≤ j → j ≤ n → j ≠ i → goodStep env j) :
    fetchStep env dir fs i = (fs, none) ∧
    ∃ fs2, fetchLoop env dir (List.range' 1 n) fs = (fs2, none) ∧
      fsGetFile fs2 (threadFilePath dir i) = fsGetFile fs (threadFilePath dir i) ∧
      (∀ j, 1 ≤ j → j ≤ n → ∀ s, env.threadFetch j = Except.ok s →
        fsGetFile fs2 (threadFilePath dir j) = some s) ∧
      (∀ p, (∀ j, 1 ≤ j → j ≤ n → p ≠ threadFilePath dir j) →
        fsGetFile fs2 p = fsGetFile fs p) := by
  have hgood : ∀ j ∈ List.range' 1 n, goodStep env j := by
    intro j hj
    rw [List.mem_range'_1] at hj
    by_cases hji : j = i
    · subst hji
      exact Or.inl hi
    · exact hrest j hj.1 (by omega) hji
  obtain ⟨fs2, hloop, hframe, hids⟩ :=
    fetchLoop_no_abort env dir (List.range' 1 n) fs hgood (threadFilePath_pairwise dir n)
  have hstep : fetchStep env dir fs i = (fs, none) := by
    unfold fetchStep
    rw [hi]
  refine ⟨hstep, fs2, hloop, ?_, ?_, ?_⟩
  · exact (hids i (List.mem_range'_1.mpr ⟨h1, by omega⟩)).1 hi
  · intro j hj1 hj2 s hs
    exact (hids j (List.mem_range'_1.mpr ⟨hj1, by omega⟩)).2 s hs
  · intro p hp
    refine hframe p (fun j hj => ?_)
    rw [List.mem_range'_1] at hj
    exact hp j hj.1 (by omega)

/-- C1 witness: a concrete three-thread course in which thread 2 fails
with an HTTP error; the loop completes, id 2 has no file, ids 1 and 3
hold exactly their fetched payloads. -/
theorem c1_witness :
    envC1.threadFetch 2 = Except.error Exc.httpError ∧
    ∃ fs2, fetchLoop envC1 "d" (List.range' 1 3) emptyFS = (fs2, none) ∧
      fsGetFile fs2 (threadFilePath "d" 2) = none ∧
      fsGetFile fs2 (threadFilePath "d" 1) = some ("p" ++ Nat.repr 1) ∧
      fsGetFile fs2 (threadFilePath "d" 3) = some ("p" ++ Nat.repr 3) := by
  obtain ⟨hstep, fs2, hloop, hun, hsucc, hframe⟩ :=
    c1_http_error_isolated envC1 "d" emptyFS 3 2 (by decide) (by decide) rfl
      (by
        intro j a b c
        right
        exact ⟨"p" ++ Nat.repr j, by simp [envC1, c], rfl⟩)
  refine ⟨rfl, fs2, hloop, ?_, ?_, ?_⟩
  · rw [hun]
    rfl
  · exact hsucc 1 (by decide) (by decide) _ rfl
  · exact hsucc 3 (by decide) (by decide) _ rfl

/-- C3: if the fetch for id `i` succeeds with payload `s` and the loop
is otherwise non-aborting, the loop completes and the file
`<dir>/<i>.json` afterwards holds exactly `s` — regardless of the
initial file system, so in particular a pre-existing file at that path
is overwritten. -/
theorem c3_success_payload_written (env : CourseEnv) (dir : String) (fs : FSState)
    (n i : Nat) (s : String) (h1 : 1 ≤ i) (h2 : i ≤ n)
    (hi : env.threadFetch i = Except.ok s)
    (hall : ∀ j, 1 ≤ j → j ≤ n → goodStep env j) :
    ∃ fs2, fetchLoop env dir (List.range' 1 n) fs = (fs2, none) ∧
      fsGetFile fs2 (threadFilePath dir i) = some s := by
  have hgood : ∀ j ∈ List.range' 1 n, goodStep env j := by
    intro j hj
    rw [List.mem_range'_1] at hj
    exact hall j hj.1 (by omega)
  obtain ⟨fs2, hloop, _, hids⟩ :=
    fetchLoop_no_abort env dir (List.range' 1 n) fs hgood (threadFilePath_pairwise dir n)
  exact ⟨fs2, hloop, (hids i (List.mem_range'_1.mpr ⟨h1, by omega⟩)).2 s hi⟩

/-- C3 witness: a one-thread course run against a file system that
already holds an older file for thread 1; after the run the file holds
exactly the freshly fetched payload. -/
theorem c3_witness :
    fsGetFile fsOld (threadFilePath "d" 1) = some "old" ∧
    ∃ fs2, fetchLoop envC3 "d" (List.range' 1 1) fsOld = (fs2, none) ∧
      fsGetFile fs2 (threadFilePath "d" 1) = some "new" := by
  obtain ⟨fs2, hloop, hget⟩ :=
    c3_success_payload_written envC3 "d" fsOld 1 1 "new" (by decide) (by decide) rfl
      (fun j a b => Or.inr ⟨"new", rfl, rfl⟩)
  exact ⟨rfl, fs2, hloop, hget⟩

/-- C2 (code bug): a course whose per-id loop exhausts all ids returns
normally with value 0, but `main` appends to `completed_classes` only
when the returned value is truthy, so the course is never recorded as
completed and the appear-completed summary line is never produced. -/
theorem c2_completion_never_reported :
    (download_forums envTwoThreads "" "demo-101" emptyFS).2 = Except.ok 0 ∧
    (mainLoop (fun _ => envTwoThreads) "" false ["demo-101"] emptyFS []).2.1 = [] ∧
    summary (mainLoop (fun _ => envTwoThreads) "" false ["demo-101"] emptyFS []).2.1 =
      none := by
  exact ⟨rfl, rfl, rfl⟩

/-- C4 counterexample: in a debug run a TLS error during the first
course's processing is re-raised, so the batch aborts and the second
course is never processed — contradicting the claim that the run
proceeds to the next course in every case. -/
theorem c4_counterexample :
    mainLoop envsSslBatch "" true ["a", "b"] emptyFS [] =
      (emptyFS, [], some Exc.sslError) ∧
    fsDirExists (mainLoop envsSslBatch "" true ["a", "b"] emptyFS []).1
      (forumsDir "" "b") = false := by
  exact ⟨rfl, rfl⟩

/-- C4 (amended): a course-level HTTP error, `ClassNotFound` or
`AuthenticationFailed` is always caught and the run proceeds to the
next course; a TLS error is likewise caught and the run proceeds,
except that in a debug run it is re-raised and aborts the batch. -/
theorem c4_caught_errors_continue (envs : String → CourseEnv) (path : String)
    (dbg : Bool) (c : String) (rest : List String) (fs : FSState)
    (completed : List String) (e : Exc)
    (he : (download_forums (envs c) path c fs).2 = Except.error e)
    (hcls : e = Exc.httpError ∨ e = Exc.classNotFound ∨ e = Exc.authenticationFailed ∨
      (e = Exc.sslError ∧ dbg = false)) :
    mainLoop envs path dbg (c :: rest) fs completed =
      mainLoop envs path dbg rest (download_forums (envs c) path c fs).1 completed := by
  simp only [mainLoop]
  rcases hdf : download_forums (envs c) path c fs with ⟨fs1, r⟩
  rw [hdf] at he
  have he2 : r = Except.error e := he
  subst he2
  rcases hcls with rfl | rfl | rfl | ⟨rfl, rfl⟩ <;> rfl

/-- C4 witness: a course failing with `ClassNotFound` is skipped and the
batch continues with the remaining courses. -/
theorem c4_witness :
    mainLoop envsNotFoundBatch "" false ["a", "b"] emptyFS [] =
      mainLoop envsNotFoundBatch "" false ["b"]
        (download_forums (envsNotFoundBatch "a") "" "a" emptyFS).1 [] := by
  exact c4_caught_errors_continue envsNotFoundBatch "" false "a" ["b"] emptyFS []
    Exc.classNotFound rfl (Or.inr (Or.inl rfl))

/-- C5 counterexample: with authentication succeeding and the
thread-index fetch raising an HTTP error, the run still creates the
archive directory — the creation happens before the index fetch, not
as part of the IndexFetched-to-Iterating transition. -/
theorem c5_counterexample :
    (download_forums envIndexHttpFail "" "c" emptyFS).2 = Except.error Exc.httpError ∧
    fsDirExists (download_forums envIndexHttpFail "" "c" emptyFS).1
      (forumsDir "" "c") = true := by
  exact ⟨rfl, rfl⟩

/-- C5 (amended): the archive directory is ensured to exist as soon as
authentication has succeeded, before the thread-index fetch; every
run whose authentication succeeds leaves the directory in existence,
whatever the outcome of the index fetch and of the loop. -/
theorem c5_dir_created_when_auth_ok (env : CourseEnv) (path cls : String) (fs : FSState)
    (ha : env.auth = Except.ok ()) :
    fsDirExists (download_forums env path cls fs).1 (forumsDir path cls) = true := by
  rcases hidx : env.index with e | field
  · simp only [download_forums, ha, hidx]
    exact fsDirExists_ensureDir fs (forumsDir path cls)
  · rcases htn : threadsNumOf field with e2 | tn
    · simp only [download_forums, ha, hidx, htn]
      exact fsDirExists_ensureDir fs (forumsDir path cls)
    · rcases hl : fetchLoop env (forumsDir path cls) (List.range' 1 tn.toNat)
          (ensureDir fs (forumsDir path cls)) with ⟨fs2, oe⟩
      have hdirs : fs2.dirs = (ensureDir fs (forumsDir path cls)).dirs := by
        have h2 := fetchLoop_dirs env (forumsDir path cls) (List.range' 1 tn.toNat)
          (ensureDir fs (forumsDir path cls))
        rw [hl] at h2
        exact h2
      have hex : fsDirExists fs2 (forumsDir path cls) = true := by
        rw [fsDirExists_congr hdirs]
        exact fsDirExists_ensureDir fs (forumsDir path cls)
      cases oe with
      | none =>
        simp only [download_forums, ha, hidx, htn, hl]
        exact hex
      | some e =>
        simp only [download_forums, ha, hidx, htn, hl]
        exact hex

/-- C5 witness: the amended statement at a concrete run whose index
fetch fails with an HTTP error. -/
theorem c5_witness :
    fsDirExists (download_forums envIndexHttpFail "" "c2w" emptyFS).1
      (forumsDir "" "c2w") = true :=
  c5_dir_created_when_auth_ok envIndexHttpFail "" "c2w" emptyFS rfl

/-- C6 (code bug in its last conjunct): with the `total_threads` field
absent (or equal to 0) the count defaults to zero, the loop performs no
fetch (the adversarial fetcher would abort the run if consulted), the
archive directory is created and holds zero thread files, and the run
returns 0 — yet the course is not recorded as completed, because
`download_forums`'s return value 0 is falsy in `main`'s test. -/
theorem c6_zero_threads_dir_created_not_reported :
    download_forums envNoField "" "demo" emptyFS =
      (⟨[forumsDir "" "demo"], []⟩, Except.ok 0) ∧
    download_forums envZeroField "" "demo" emptyFS =
      (⟨[forumsDir "" "demo"], []⟩, Except.ok 0) ∧
    (mainLoop (fun _ => envNoField) "" false ["demo"] emptyFS []).2.1 = [] := by
  exact ⟨rfl, rfl, rfl⟩

/-- C7: when authentication for a course fails with `ClassNotFound` or
`AuthenticationFailed`, `download_forums` raises it before touching the
file system — no directory and no files are created — and `main`
catches it and continues the batch with the remaining courses from the
same file-system state. -/
theorem c7_auth_failure_leaves_fs_untouched (envs : String → CourseEnv) (path : String)
    (dbg : Bool) (c : String) (rest : List String) (fs : FSState)
    (completed : List String) (e : Exc)
    (ha : (envs c).auth = Except.error e)
    (he : e = Exc.classNotFound ∨ e = Exc.authenticationFailed) :
    download_forums (envs c) path c fs = (fs, Except.error e) ∧
    mainLoop envs path dbg (c :: rest) fs completed =
      mainLoop envs path dbg rest fs completed := by
  have hd : download_forums (envs c) path c fs = (fs, Except.error e) := by
    unfold download_forums
    rw [ha]
  refine ⟨hd, ?_⟩
  simp only [mainLoop]
  rw [hd]
  rcases he with rfl | rfl <;> rfl

/-- C7 witness: a concrete course failing with `ClassNotFound` leaves
the empty file system empty and the batch moves on. -/
theorem c7_witness :
    download_forums (envsNotFoundBatch "a") "" "a" emptyFS =
      (emptyFS, Except.error Exc.classNotFound) ∧
    mainLoop envsNotFoundBatch "" false ["a", "b"] emptyFS [] =
      mainLoop envsNotFoundBatch "" false ["b"] emptyFS [] :=
  c7_auth_failure_leaves_fs_untouched envsNotFoundBatch "" false "a" ["b"] emptyFS []
    Exc.classNotFound rfl (Or.inl rfl)

/-- C8: when a cookie-jar path is supplied and does not exist on disk,
the process exits with status 1; the conclusion holds for every course
environment and file system, so no network call is made and no course
is processed before the exit. -/
theorem c8_missing_cookie_jar_exits_one (a : ArgsIn) (p : String)
    (existsOnDisk : String → Bool) (envs : String → CourseEnv) (fs : FSState)
    (hc : a.cookies_file = some p) (hne : existsOnDisk p = false) :
    mainEntry a existsOnDisk envs fs = Except.error 1 := by
  simp only [mainEntry, parse_args, hc, hne]
  rfl

/-- C8 witness: concrete options naming an absent cookie jar exit with
status 1. -/
theorem c8_witness :
    mainEntry argsMissingJar (fun _ => false) (fun _ => envTwoThreads) emptyFS =
      Except.error 1 :=
  c8_missing_cookie_jar_exits_one argsMissingJar "/home/user/cookies.txt"
    (fun _ => false) (fun _ => envTwoThreads) emptyFS rfl rfl

/-- C9: inside the per-id loop only an HTTP-status error is skippable;
a fetch failure of any other class, or a failure while opening or
writing the id's file, aborts the remaining ids immediately with the
file system as it was, and (second conjunct) such a loop abort becomes
the course-level outcome of `download_forums`. -/
theorem c9_only_http_error_skippable :
    (∀ (env : CourseEnv) (dir : String) (fs : FSState) (i : Nat) (rest : List Nat)
      (e : Exc),
      ((env.threadFetch i = Except.error e ∧ e ≠ Exc.httpError) ∨
        (∃ s, env.threadFetch i = Except.ok s ∧ env.writeErr i = some e)) →
      fetchLoop env dir (i :: rest) fs = (fs, some e)) ∧
    (∀ (env : CourseEnv) (path cls : String) (fs fs2 : FSState) (n : Int) (e : Exc),
      env.auth = Except.ok () →
      env.index = Except.ok (some (PyVal.int n)) →
      fetchLoop env (forumsDir path cls) (List.range' 1 n.toNat)
        (ensureDir fs (forumsDir path cls)) = (fs2, some e) →
      download_forums env path cls fs = (fs2, Except.error e)) := by
  constructor
  · intro env dir fs i rest e h
    have hstep : fetchStep env dir fs i = (fs, some e) := by
      rcases h with ⟨herr, hne⟩ | ⟨s, hok, hw⟩
      · unfold fetchStep
        rw [herr]
        cases e
        · exact absurd rfl hne
        all_goals rfl
      · unfold fetchStep
        rw [hok, hw]
    simp only [fetchLoop]
    rw [hstep]
  · intro env path cls fs fs2 n e ha hidx hloop
    simp only [download_forums, ha, hidx, threadsNumOf, pyInt, hloop]

/-- C9 witness: a connection error on thread 1 aborts the loop before
thread 2 and becomes the course's failure. -/
theorem c9_witness :
    fetchLoop envConnFail "d" [1, 2] emptyFS = (emptyFS, some Exc.connectionError) ∧
    download_forums envConnFail "" "c9" emptyFS =
      (fsMkdirP emptyFS (forumsDir "" "c9"), Except.error Exc.connectionError) := by
  constructor
  · exact c9_only_http_error_skippable.1 envConnFail "d" emptyFS 1 [2]
      Exc.connectionError (Or.inl ⟨rfl, by decide⟩)
  · exact c9_only_http_error_skippable.2 envConnFail "" "c9" emptyFS
      (fsMkdirP emptyFS (forumsDir "" "c9")) 2 Exc.connectionError rfl rfl rfl

/-- C10: a present but non-numeric `total_threads` makes the `int()`
conversion raise `ValueError`, which no handler catches: the batch
terminates at that course, with exactly the side effects performed so
far (the archive directory), and the courses after it are never
processed — running with them is the same as running without them. -/
theorem c10_malformed_count_terminates_batch (envs : String → CourseEnv) (path : String)
    (dbg : Bool) (c : String) (rest : List String) (fs : FSState)
    (completed : List String) (s : String)
    (ha : (envs c).auth = Except.ok ())
    (hidx : (envs c).index = Except.ok (some (PyVal.str s)))
    (hbad : parseIntLiteral s.data = none) :
    mainLoop envs path dbg (c :: rest) fs completed =
      (ensureDir fs (forumsDir path c), completed, some Exc.valueError) ∧
    mainLoop envs path dbg (c :: rest) fs completed =
      mainLoop envs path dbg [c] fs completed := by
  have hd : download_forums (envs c) path c fs =
      (ensureDir fs (forumsDir path c), Except.error Exc.valueError) := by
    simp only [download_forums, ha, hidx, threadsNumOf, pyInt, hbad]
  have hm : ∀ tail : List String, mainLoop envs path dbg (c :: tail) fs completed =
      (ensureDir fs (forumsDir path c), completed, some Exc.valueError) := by
    intro tail
    simp only [mainLoop, hd]
  exact ⟨hm rest, (hm rest).trans (hm []).symm⟩

/-- C10 witness: `total_threads = "abc"` on the first course terminates
the whole two-course batch with an uncaught `ValueError`. -/
theorem c10_witness :
    (parseIntLiteral "abc".data = none) ∧
    mainLoop envsBadCountBatch "" false ["a", "b"] emptyFS [] =
      (ensureDir emptyFS (forumsDir "" "a"), [], some Exc.valueError) := by
  refine ⟨rfl, ?_⟩
  exact (c10_malformed_count_terminates_batch envsBadCountBatch "" false "a" ["b"]
    emptyFS [] "abc" rfl rfl rfl).1

end CourseraForumDl
